import Mathlib

/-!
Shallow embedding of the higgsfield-js SDK core: the retry engine
(`src/utils/retry.ts`), the configuration validator (`src/config.ts`),
the `JobSet` polling state machine (`src/models/JobSet.ts`) and the
response-interceptor error classifier (`src/client.ts`, `src/errors.ts`).

Machine integers and JS numbers are modelled as `Int` (milliseconds,
status codes as `Nat`) and backoff delays as `ℚ`; fallible code returns
`Except`.  Asynchronous loops are modelled as executable functions over an
explicit trace of events (one event per loop iteration), with a
distinguished outcome for a trace that ends before the loop does.
-/

namespace Higgsfield

/-- Decidable equality for `Except`, used by the derived instances below. -/
def exceptDecEq {ε α : Type} [DecidableEq ε] [DecidableEq α] :
    (a b : Except ε α) → Decidable (a = b)
  | Except.ok a, Except.ok b =>
    if h : a = b then isTrue (by rw [h])
    else isFalse (by intro hc; injection hc; exact h (by assumption))
  | Except.ok _, Except.error _ => isFalse (by intro hc; exact Except.noConfusion hc)
  | Except.error _, Except.ok _ => isFalse (by intro hc; exact Except.noConfusion hc)
  | Except.error a, Except.error b =>
    if h : a = b then isTrue (by rw [h])
    else isFalse (by intro hc; injection hc; exact h (by assumption))

instance {ε α : Type} [DecidableEq ε] [DecidableEq α] : DecidableEq (Except ε α) :=
  exceptDecEq

/-! ### Transport-level errors

An axios error carries an optional `code` (for example `"ECONNRESET"`)
and, when a response was received, its HTTP status.  Every other thrown
value (including the SDK's own typed errors) is a non-axios error,
identified here by its name only. -/

structure AxiosErrorInfo where
  code : Option String
  responseStatus : Option Nat
deriving Repr, DecidableEq

inductive TSError where
  | axios (info : AxiosErrorInfo)
  | other (name : String)
deriving Repr, DecidableEq

/-! ### Configuration (`src/config.ts`) -/

structure ConfigData where
  timeout : Int
  maxRetries : Int
  retryBackoff : Int
  retryMaxBackoff : Int
  pollInterval : Int
  maxPollTime : Int
deriving Repr, DecidableEq

/-- The default field values of `Config`. -/
def defaultConfig : ConfigData :=
  { timeout := 120000
    maxRetries := 3
    retryBackoff := 1000
    retryMaxBackoff := 60000
    pollInterval := 2000
    maxPollTime := 300000 }

/-- `Config.validate`, called by the `Config` constructor: the checks in
source order, surfacing the first failing check's message. -/
def Config.validate (c : ConfigData) : Except String Unit :=
  if c.timeout ≤ 0 then Except.error "timeout must be positive"
  else if c.maxRetries < 0 then Except.error "maxRetries must be non-negative"
  else if c.maxRetries > 5 then Except.error "maxRetries cannot be greater than 5"
  else if c.pollInterval ≤ 0 then Except.error "pollInterval must be positive"
  else if c.maxPollTime ≤ 0 then Except.error "maxPollTime must be positive"
  else Except.ok ()

/-! ### Retry engine (`src/utils/retry.ts`)

`retryWithBackoff` is modelled by a structurally recursive function over
the remaining number of loop iterations (`fuel`, initially
`maxRetries + 1`).  The nondeterministic outcome of each invocation of
the wrapped operation is supplied as `op : Nat → Except TSError T`
(attempt index to outcome) and the sampled `Math.random() * 1000`
jitter of each iteration as `jitter : Nat → ℚ`; no other state flows
between attempts.  The outcome records the value or error produced,
how many times `op` was invoked, and the list of delays slept. -/

structure RetryConfig where
  maxRetries : Nat
  backoff : ℚ
  maxBackoff : ℚ
deriving Repr, DecidableEq

structure RetryOutcome (T : Type) where
  result : Except TSError T
  attempts : Nat
  delays : List ℚ
deriving Repr, DecidableEq

/-- The retryability test of `retryWithBackoff`, applied to axios errors
only: a listed connection-level code, or a response with status ≥ 500. -/
def axiosRetryable (i : AxiosErrorInfo) : Bool :=
  i.code == some "ECONNRESET" || i.code == some "ETIMEDOUT" ||
  i.code == some "ENOTFOUND" ||
  (match i.responseStatus with
   | some s => decide (500 ≤ s)
   | none => false)

/-- Whether the catch block rethrows immediately (before any delay): only
an `AxiosError` failing `axiosRetryable` does; every non-axios error
falls through to the delay-and-retry path. -/
def throwsWithoutRetry : TSError → Bool
  | TSError.axios i => !axiosRetryable i
  | TSError.other _ => false

/-- The delay slept after the failed attempt `attempt` (0-indexed):
`Math.min(backoff * 2 ** attempt + Math.random() * 1000, maxBackoff)`,
with the sampled `Math.random() * 1000` passed in as `jitter`. -/
def retryDelay (cfg : RetryConfig) (jitter : ℚ) (attempt : Nat) : ℚ :=
  min (cfg.backoff * 2 ^ attempt + jitter) cfg.maxBackoff

/-- One iteration of the `for` loop of `retryWithBackoff` at index
`attempt`, with `fuel` iterations left (`attempt + fuel = maxRetries + 1`
at every call).  On failure the loop first rethrows when the attempt
budget is exhausted (`attempt === config.maxRetries`), then rethrows a
non-retryable axios error, and otherwise sleeps and retries.  The
`fuel = 0` case is the unreachable fall-through after the loop
(`throw lastError || new Error('Retry failed')`). -/
def retryFrom {T : Type} (cfg : RetryConfig) (op : Nat → Except TSError T)
    (jitter : Nat → ℚ) : Nat → Nat → RetryOutcome T
  | _, 0 => ⟨Except.error (TSError.other "Retry failed"), 0, []⟩
  | attempt, fuel + 1 =>
    match op attempt with
    | Except.ok v => ⟨Except.ok v, 1, []⟩
    | Except.error e =>
      if fuel = 0 then ⟨Except.error e, 1, []⟩
      else if throwsWithoutRetry e then ⟨Except.error e, 1, []⟩
      else
        let rest := retryFrom cfg op jitter (attempt + 1) fuel
        ⟨rest.result, rest.attempts + 1,
          retryDelay cfg (jitter attempt) attempt :: rest.delays⟩

/-- `retryWithBackoff(fn, config)`: run the loop from attempt 0 with
`maxRetries + 1` iterations available. -/
def retryWithBackoff {T : Type} (cfg : RetryConfig) (op : Nat → Except TSError T)
    (jitter : Nat → ℚ) : RetryOutcome T :=
  retryFrom cfg op jitter 0 (cfg.maxRetries + 1)

/-! ### Jobs and job sets (`src/types.ts`, `src/models/JobSet.ts`) -/

structure JobResult where
  url : String
  type : String
deriving Repr, DecidableEq

structure JobResults where
  raw : JobResult
  min : JobResult
deriving Repr, DecidableEq

structure Job where
  id : String
  status : String
  results : Option JobResults
deriving Repr, DecidableEq

/-- The `JobStatus` string enumeration. -/
def JobStatus.QUEUED : String := "queued"

def JobStatus.IN_PROGRESS : String := "in_progress"

def JobStatus.COMPLETED : String := "completed"

def JobStatus.FAILED : String := "failed"

def JobStatus.NSFW : String := "nsfw"

def JobStatus.CANCELED : String := "canceled"

structure JobSet where
  id : String
  jobs : List Job
deriving Repr, DecidableEq

/-- `JobSet.checkStatus`: some job of the set has the given status. -/
def JobSet.checkStatus (s : JobSet) (status : String) : Bool :=
  s.jobs.any fun job => job.status == status

def JobSet.isQueued (s : JobSet) : Bool := s.checkStatus JobStatus.QUEUED

def JobSet.isInProgress (s : JobSet) : Bool := s.checkStatus JobStatus.IN_PROGRESS

def JobSet.isCompleted (s : JobSet) : Bool := s.checkStatus JobStatus.COMPLETED

def JobSet.isNsfw (s : JobSet) : Bool := s.checkStatus JobStatus.NSFW

def JobSet.isFailed (s : JobSet) : Bool := s.checkStatus JobStatus.FAILED

def JobSet.isCanceled (s : JobSet) : Bool := s.checkStatus JobStatus.CANCELED

def JobSet.pollingUrl (s : JobSet) : String := "/v1/job-sets/" ++ s.id

/-! ### The poll loop (`JobSet.poll`)

Each iteration of the `while (true)` loop is driven by one `PollEvent`:
the value of `Date.now()` at the top-of-loop deadline check, and the
outcome `client.get(this.pollingUrl)` would produce in that iteration.
The outcome records the final state and the number of status queries
issued; `traceEnded` marks a trace exhausted with the loop still
running. -/

structure PollEvent where
  now : Int
  query : Except TSError (List Job)
deriving Repr, DecidableEq

inductive PollOutcome where
  | settled (s : JobSet) (queries : Nat)
  | timedOut (message : String) (queries : Nat)
  | errored (e : TSError) (queries : Nat)
  | traceEnded (s : JobSet) (queries : Nat)
deriving Repr, DecidableEq

/-- Add one issued status query to an outcome's count. -/
def pollBump : PollOutcome → PollOutcome
  | PollOutcome.settled s q => PollOutcome.settled s (q + 1)
  | PollOutcome.timedOut m q => PollOutcome.timedOut m (q + 1)
  | PollOutcome.errored e q => PollOutcome.errored e (q + 1)
  | PollOutcome.traceEnded s q => PollOutcome.traceEnded s (q + 1)

/-- The catch-branch test of `JobSet.poll`:
`axios.isAxiosError(error) && error.response?.status && error.response.status >= 500`
(a truthy status that is at least 500 on an axios error). -/
def pollTransient : TSError → Bool
  | TSError.axios info =>
    (match info.responseStatus with
     | some s => s != 0 && decide (500 ≤ s)
     | none => false)
  | TSError.other _ => false

/-- The message of the `TimeoutError` thrown by `JobSet.poll`. -/
def timeoutMessage (maxPollTime : Int) : String :=
  "Polling exceeded maximum time of " ++ toString maxPollTime ++ "ms"

/-- `JobSet.poll`: per iteration, first the deadline check against the
recorded start time, then one status query; on success the jobs
collection is replaced wholesale by the response payload and polling
stops when the replaced set has a terminal-status job; a transient
(≥ 500 axios) failure continues the loop, any other failure propagates. -/
def pollLoop (cfg : ConfigData) (startTime : Int) (s : JobSet) :
    List PollEvent → PollOutcome
  | [] => PollOutcome.traceEnded s 0
  | e :: rest =>
    if e.now - startTime > cfg.maxPollTime then
      PollOutcome.timedOut (timeoutMessage cfg.maxPollTime) 0
    else
      match e.query with
      | Except.ok js =>
        let s' : JobSet := { s with jobs := js }
        if s'.isCompleted || s'.isNsfw || s'.isFailed || s'.isCanceled then
          PollOutcome.settled s' 1
        else pollBump (pollLoop cfg startTime s' rest)
      | Except.error err =>
        if pollTransient err then pollBump (pollLoop cfg startTime s rest)
        else PollOutcome.errored err 1

/-! ### Error classifier (`src/client.ts` response interceptor,
`src/errors.ts`) -/

structure DetailEntry where
  type : String
  loc : List String
  msg : String
deriving Repr, DecidableEq

/-- The `detail` field of an error response body: either a plain string
or a structured list of entries. -/
inductive Detail where
  | str (s : String)
  | list (entries : List DetailEntry)
deriving Repr, DecidableEq

structure RespBody where
  detail : Option Detail
deriving Repr, DecidableEq

structure RespInfo where
  status : Nat
  data : Option RespBody
deriving Repr, DecidableEq

/-- The error object seen by the response interceptor: the transport
error's message and, when a response arrived, its status and body. -/
structure TransportError where
  message : String
  response : Option RespInfo
deriving Repr, DecidableEq

structure TypedErrorData where
  message : String
  statusCode : Nat
  details : Option (List DetailEntry)
deriving Repr, DecidableEq

/-- The `ValidationError` constructor (`statusCode` fixed at 422). -/
def ValidationError.make (detail : Option Detail) : TypedErrorData :=
  match detail with
  | some (Detail.list l) =>
    ⟨String.intercalate ", "
        (l.map fun err => String.intercalate "." err.loc ++ ": " ++ err.msg),
      422, some l⟩
  | some (Detail.str s) => ⟨s, 422, none⟩
  | none => ⟨"Check your input params", 422, none⟩

/-- The `BadInputError` constructor (`statusCode` fixed at 400); its body
duplicates `ValidationError`'s in the source. -/
def BadInputError.make (detail : Option Detail) : TypedErrorData :=
  match detail with
  | some (Detail.list l) =>
    ⟨String.intercalate ", "
        (l.map fun err => String.intercalate "." err.loc ++ ": " ++ err.msg),
      400, some l⟩
  | some (Detail.str s) => ⟨s, 400, none⟩
  | none => ⟨"Check your input params", 400, none⟩

inductive ClassifiedError where
  | auth (message : String)
  | credits (message : String) (statusCode : Nat)
  | validation (v : TypedErrorData)
  | badInput (v : TypedErrorData)
  | api (message : String) (statusCode : Nat) (responseData : Option RespBody)
  | passthrough (e : TransportError)
deriving Repr, DecidableEq

/-- The rejection handler installed by the `HiggsfieldClient` constructor:
status 401, 403, 422 and 400 map to the dedicated typed errors, any other
received response to `APIError(message, status, data)`, and an error with
no response is rethrown unchanged. -/
def classifyResponseError (e : TransportError) : ClassifiedError :=
  match e.response with
  | some r =>
    if r.status = 401 then ClassifiedError.auth "Invalid API credentials"
    else if r.status = 403 then ClassifiedError.credits "Not enough credits" 403
    else if r.status = 422 then
      ClassifiedError.validation (ValidationError.make (r.data.bind RespBody.detail))
    else if r.status = 400 then
      ClassifiedError.badInput (BadInputError.make (r.data.bind RespBody.detail))
    else ClassifiedError.api e.message r.status r.data
  | none => ClassifiedError.passthrough e

/-! ### Retry-engine lemmas -/

/-- A run of the retry loop in which every attempt fails and no failure
triggers the immediate rethrow: it uses all its fuel, surfaces the last
attempt's failure, and sleeps once between consecutive attempts. -/
theorem retryFrom_all_retryable {T : Type} (cfg : RetryConfig)
    (op : Nat → Except TSError T) (jitter : Nat → ℚ) (errs : Nat → TSError)
    (hop : ∀ n, op n = Except.error (errs n))
    (hre : ∀ n, throwsWithoutRetry (errs n) = false) :
    ∀ fuel attempt, retryFrom cfg op jitter attempt (fuel + 1) =
      ⟨Except.error (errs (attempt + fuel)), fuel + 1,
        (List.range' attempt fuel).map fun m => retryDelay cfg (jitter m) m⟩ := by
  intro fuel
  induction fuel with
  | zero => intro attempt; simp [retryFrom, hop attempt]
  | succ fuel ih =>
    intro attempt
    rw [retryFrom.eq_2, hop attempt]
    simp only [hre attempt, Bool.false_eq_true, if_false, Nat.succ_ne_zero, ite_false,
      ih (attempt + 1)]
    rw [List.range'_succ, List.map_cons]
    have h : attempt + 1 + fuel = attempt + (fuel + 1) := by omega
    rw [h]

/-- C6: for an operation whose every invocation fails with a retryable
failure, `retryWithBackoff` invokes the operation exactly
`maxRetries + 1` times and surfaces the failure observed on the last
attempt; the only state threaded between attempts is the attempt index
(the per-attempt outcome `op` and jitter sample are functions of it
alone). -/
theorem retry_all_retryable_attempts_exact {T : Type} (cfg : RetryConfig)
    (op : Nat → Except TSError T) (jitter : Nat → ℚ) (errs : Nat → TSError)
    (hop : ∀ n, op n = Except.error (errs n))
    (hre : ∀ n, throwsWithoutRetry (errs n) = false) :
    (retryWithBackoff cfg op jitter).attempts = cfg.maxRetries + 1 ∧
    (retryWithBackoff cfg op jitter).result = Except.error (errs cfg.maxRetries) := by
  unfold retryWithBackoff
  rw [retryFrom_all_retryable cfg op jitter errs hop hre cfg.maxRetries 0]
  simp

/-- Witness for C6: a concrete always-`ECONNRESET` operation with
`maxRetries = 2` is attempted 3 times and its failure surfaces. -/
theorem retry_all_retryable_attempts_exact_witness :
    throwsWithoutRetry (TSError.axios ⟨some "ECONNRESET", none⟩) = false ∧
    (retryWithBackoff ⟨2, 1, 10⟩
        (fun _ => (Except.error (TSError.axios ⟨some "ECONNRESET", none⟩) : Except TSError Unit))
        (fun _ => 0)).attempts = 2 + 1 ∧
    (retryWithBackoff ⟨2, 1, 10⟩
        (fun _ => (Except.error (TSError.axios ⟨some "ECONNRESET", none⟩) : Except TSError Unit))
        (fun _ => 0)).result = Except.error (TSError.axios ⟨some "ECONNRESET", none⟩) :=
  ⟨by decide,
    (retry_all_retryable_attempts_exact ⟨2, 1, 10⟩
      (fun _ => (Except.error (TSError.axios ⟨some "ECONNRESET", none⟩) : Except TSError Unit))
      (fun _ => 0) (fun _ => TSError.axios ⟨some "ECONNRESET", none⟩)
      (fun _ => rfl) (fun _ => rfl)).1,
    (retry_all_retryable_attempts_exact ⟨2, 1, 10⟩
      (fun _ => (Except.error (TSError.axios ⟨some "ECONNRESET", none⟩) : Except TSError Unit))
      (fun _ => 0) (fun _ => TSError.axios ⟨some "ECONNRESET", none⟩)
      (fun _ => rfl) (fun _ => rfl)).2⟩

/-- C7: in a run that keeps retrying, the delay slept before the
`(n+1)`-th attempt is `min (backoff * 2 ^ n + jitter, maxBackoff)` where
`jitter` is that iteration's sampled `Math.random() * 1000`; for any
jitter in `[0, 1000)` the delay lies between the capped `backoff * 2 ^ n`
and `backoff * 2 ^ n + 1000` (exclusive), and never exceeds
`maxBackoff`. -/
theorem retry_delay_formula_and_bounds {T : Type} (cfg : RetryConfig)
    (op : Nat → Except TSError T) (jitter : Nat → ℚ) (errs : Nat → TSError)
    (n : Nat)
    (hop : ∀ k, op k = Except.error (errs k))
    (hre : ∀ k, throwsWithoutRetry (errs k) = false)
    (hn : n < cfg.maxRetries)
    (hj0 : 0 ≤ jitter n) (hj1 : jitter n < 1000) :
    (retryWithBackoff cfg op jitter).delays[n]? =
      some (min (cfg.backoff * 2 ^ n + jitter n) cfg.maxBackoff) ∧
    min (cfg.backoff * 2 ^ n) cfg.maxBackoff ≤
      min (cfg.backoff * 2 ^ n + jitter n) cfg.maxBackoff ∧
    min (cfg.backoff * 2 ^ n + jitter n) cfg.maxBackoff <
      cfg.backoff * 2 ^ n + 1000 ∧
    min (cfg.backoff * 2 ^ n + jitter n) cfg.maxBackoff ≤ cfg.maxBackoff := by
  refine ⟨?_, ?_, ?_, min_le_right _ _⟩
  · obtain ⟨fuel, hfuel⟩ : ∃ fuel, cfg.maxRetries = fuel + 1 :=
      ⟨cfg.maxRetries - 1, by omega⟩
    unfold retryWithBackoff
    rw [show cfg.maxRetries + 1 = (fuel + 1) + 1 from by omega,
      retryFrom_all_retryable cfg op jitter errs hop hre (fuel + 1) 0,
      ← List.range_eq_range']
    simp only [List.getElem?_map, List.getElem?_range (show n < fuel + 1 from by omega)]
    rfl
  · exact min_le_min (by linarith) le_rfl
  · exact lt_of_le_of_lt (min_le_left _ _) (by linarith)

/-- Witness for C7: the formula and bounds at `n = 1` of a concrete
always-failing run with `backoff = 5`, `maxBackoff = 1000000`,
jitter 3. -/
theorem retry_delay_formula_and_bounds_witness :
    (1 : Nat) < 2 ∧ (0 : ℚ) ≤ 3 ∧ (3 : ℚ) < 1000 ∧
    ((retryWithBackoff ⟨2, 5, 1000000⟩
        (fun _ => (Except.error (TSError.other "boom") : Except TSError Unit))
        (fun _ => 3)).delays[1]? =
      some (min ((5 : ℚ) * 2 ^ 1 + 3) 1000000) ∧
    min ((5 : ℚ) * 2 ^ 1) 1000000 ≤ min ((5 : ℚ) * 2 ^ 1 + 3) 1000000 ∧
    min ((5 : ℚ) * 2 ^ 1 + 3) 1000000 < (5 : ℚ) * 2 ^ 1 + 1000 ∧
    min ((5 : ℚ) * 2 ^ 1 + 3) 1000000 ≤ (1000000 : ℚ)) :=
  ⟨by decide, by norm_num, by norm_num,
    retry_delay_formula_and_bounds ⟨2, 5, 1000000⟩
      (fun _ => (Except.error (TSError.other "boom") : Except TSError Unit))
      (fun _ => 3) (fun _ => TSError.other "boom") 1 (fun _ => rfl) (fun _ => rfl)
      (by decide) (by norm_num) (by norm_num)⟩

/-- C1 (amended): only axios failures are subject to the retryability
test.  An axios failure that is not `ECONNRESET`, `ETIMEDOUT` or
`ENOTFOUND` and has no response with status ≥ 500 — in particular any
axios 4xx response — propagates on the first occurrence: one invocation,
no sleep.  A non-axios failure (such as the SDK's typed validation
errors) skips the test and is retried whenever `maxRetries ≥ 1`. -/
theorem retry_nonretryable_axios_single_attempt :
    (∀ (T : Type) (cfg : RetryConfig) (op : Nat → Except TSError T)
        (jitter : Nat → ℚ) (i : AxiosErrorInfo),
      op 0 = Except.error (TSError.axios i) → axiosRetryable i = false →
      retryWithBackoff cfg op jitter =
        ⟨Except.error (TSError.axios i), 1, []⟩) ∧
    (∀ (cfg : RetryConfig) (op : Nat → Except TSError Unit)
        (jitter : Nat → ℚ) (nm : String),
      1 ≤ cfg.maxRetries → (∀ k, op k = Except.error (TSError.other nm)) →
      2 ≤ (retryWithBackoff cfg op jitter).attempts) := by
  constructor
  · intro T cfg op jitter i hop hax
    unfold retryWithBackoff
    cases hm : cfg.maxRetries with
    | zero => simp [retryFrom, hop]
    | succ m => simp [retryFrom, hop, throwsWithoutRetry, hax]
  · intro cfg op jitter nm hmr hop
    have h := retry_all_retryable_attempts_exact cfg op jitter
      (fun _ => TSError.other nm) hop (fun _ => rfl)
    omega

/-- Witness for C1's amended theorem: a 404 axios failure is thrown after
a single attempt even with `maxRetries = 3`, while a non-axios failure is
attempted at least twice with `maxRetries = 1`. -/
theorem retry_nonretryable_axios_single_attempt_witness :
    axiosRetryable ⟨none, some 404⟩ = false ∧
    retryWithBackoff ⟨3, 1, 10⟩
        (fun _ => (Except.error (TSError.axios ⟨none, some 404⟩) : Except TSError Unit))
        (fun _ => 0) =
      ⟨Except.error (TSError.axios ⟨none, some 404⟩), 1, []⟩ ∧
    2 ≤ (retryWithBackoff ⟨1, 1, 10⟩
        (fun _ => (Except.error (TSError.other "ValidationError") : Except TSError Unit))
        (fun _ => 0)).attempts :=
  ⟨by decide,
    retry_nonretryable_axios_single_attempt.1 Unit ⟨3, 1, 10⟩
      (fun _ => (Except.error (TSError.axios ⟨none, some 404⟩) : Except TSError Unit))
      (fun _ => 0) ⟨none, some 404⟩ rfl (by decide),
    retry_nonretryable_axios_single_attempt.2 ⟨1, 1, 10⟩
      (fun _ => (Except.error (TSError.other "ValidationError") : Except TSError Unit))
      (fun _ => 0) "ValidationError" (by decide) (fun _ => rfl)⟩

/-- C1 counterexample: with `maxRetries = 1`, an operation that always
fails with a non-axios error named `"ValidationError"` — a failure that
is not a connection reset, connection timeout or DNS failure and has no
response with status ≥ 500 — is invoked twice with one sleep in between,
so this failure does not propagate on the first occurrence. -/
theorem retry_validation_error_is_retried :
    (retryWithBackoff ⟨1, 1, 10⟩
        (fun _ => (Except.error (TSError.other "ValidationError") : Except TSError Unit))
        (fun _ => 0)).attempts = 2 ∧
    (retryWithBackoff ⟨1, 1, 10⟩
        (fun _ => (Except.error (TSError.other "ValidationError") : Except TSError Unit))
        (fun _ => 0)).delays.length = 1 := by
  constructor <;> rfl

/-! ### Poll-loop lemmas -/

/-- The stop condition of the poll loop depends only on the jobs list:
`anyTerminal js` is the check `isCompleted || isNsfw || isFailed ||
isCanceled` evaluated on any job set whose jobs are `js`. -/
def anyTerminal (js : List Job) : Bool :=
  (JobSet.mk "" js).isCompleted || (JobSet.mk "" js).isNsfw ||
  (JobSet.mk "" js).isFailed || (JobSet.mk "" js).isCanceled

theorem stopCheck_eq_anyTerminal (s : JobSet) (js : List Job) :
    (({ s with jobs := js } : JobSet).isCompleted ||
     ({ s with jobs := js } : JobSet).isNsfw ||
     ({ s with jobs := js } : JobSet).isFailed ||
     ({ s with jobs := js } : JobSet).isCanceled) = anyTerminal js := rfl

/-- The stop condition holds iff some job of the set has one of the four
terminal statuses. -/
theorem jobSet_terminal_iff (s : JobSet) :
    (s.isCompleted || s.isNsfw || s.isFailed || s.isCanceled) = true ↔
      ∃ j ∈ s.jobs, j.status = "completed" ∨ j.status = "nsfw" ∨
        j.status = "failed" ∨ j.status = "canceled" := by
  simp only [JobSet.isCompleted, JobSet.isNsfw, JobSet.isFailed, JobSet.isCanceled,
    JobSet.checkStatus, JobStatus.COMPLETED, JobStatus.NSFW, JobStatus.FAILED,
    JobStatus.CANCELED, Bool.or_eq_true, List.any_eq_true, beq_iff_eq]
  constructor
  · rintro (((⟨j, hj, hs⟩ | ⟨j, hj, hs⟩) | ⟨j, hj, hs⟩) | ⟨j, hj, hs⟩) <;>
      exact ⟨j, hj, by tauto⟩
  · rintro ⟨j, hj, hs | hs | hs | hs⟩
    · exact Or.inl (Or.inl (Or.inl ⟨j, hj, hs⟩))
    · exact Or.inl (Or.inl (Or.inr ⟨j, hj, hs⟩))
    · exact Or.inl (Or.inr ⟨j, hj, hs⟩)
    · exact Or.inr ⟨j, hj, hs⟩

/-- `pollBump` sends a settled outcome to a settled outcome. -/
theorem pollBump_settled {out : PollOutcome} {s : JobSet} {n : Nat}
    (h : pollBump out = PollOutcome.settled s n) :
    ∃ m, out = PollOutcome.settled s m := by
  cases out with
  | settled s' q =>
    simp only [pollBump, PollOutcome.settled.injEq] at h
    exact ⟨q, by rw [h.1]⟩
  | timedOut m q => simp [pollBump] at h
  | errored e q => simp [pollBump] at h
  | traceEnded s' q => simp [pollBump] at h

/-- `pollBump` sends an errored outcome to an errored outcome. -/
theorem pollBump_errored {out : PollOutcome} {e : TSError} {n : Nat}
    (h : pollBump out = PollOutcome.errored e n) :
    ∃ m, out = PollOutcome.errored e m := by
  cases out with
  | settled s' q => simp [pollBump] at h
  | timedOut m q => simp [pollBump] at h
  | errored e' q =>
    simp only [pollBump, PollOutcome.errored.injEq] at h
    exact ⟨q, by rw [h.1]⟩
  | traceEnded s' q => simp [pollBump] at h

/-- C2: `JobSet.poll` returns successfully exactly when a successful
status response leaves at least one job in a terminal status: every
settled outcome exhibits a terminal job; and in any non-timed-out
iteration whose query succeeds with payload `js`, the jobs collection is
replaced wholesale by `js` before the terminal check, the loop settling
immediately at `{ s with jobs := js }` when some job of `js` is terminal
and continuing with the replaced set when none is (all jobs terminal is
not required). -/
theorem jobSet_poll_settles_iff_any_terminal :
    (∀ (cfg : ConfigData) (start : Int) (s : JobSet) (trace : List PollEvent)
        (s' : JobSet) (n : Nat),
      pollLoop cfg start s trace = PollOutcome.settled s' n →
      ∃ j ∈ s'.jobs, j.status = "completed" ∨ j.status = "nsfw" ∨
        j.status = "failed" ∨ j.status = "canceled") ∧
    (∀ (cfg : ConfigData) (start : Int) (s : JobSet) (e : PollEvent)
        (rest : List PollEvent) (js : List Job),
      ¬ e.now - start > cfg.maxPollTime → e.query = Except.ok js →
      ((∃ j ∈ js, j.status = "completed" ∨ j.status = "nsfw" ∨
          j.status = "failed" ∨ j.status = "canceled") →
        pollLoop cfg start s (e :: rest) =
          PollOutcome.settled { s with jobs := js } 1) ∧
      (¬ (∃ j ∈ js, j.status = "completed" ∨ j.status = "nsfw" ∨
          j.status = "failed" ∨ j.status = "canceled") →
        pollLoop cfg start s (e :: rest) =
          pollBump (pollLoop cfg start { s with jobs := js } rest))) := by
  constructor
  · intro cfg start s trace
    induction trace generalizing s with
    | nil => intro s' n h; simp [pollLoop] at h
    | cons e rest ih =>
      intro s' n h
      simp only [pollLoop] at h
      by_cases ht : e.now - start > cfg.maxPollTime
      · rw [if_pos ht] at h
        exact absurd h (by simp)
      · rw [if_neg ht] at h
        cases hq : e.query with
        | ok js =>
          rw [hq] at h
          dsimp only at h
          by_cases hterm :
              (({ s with jobs := js } : JobSet).isCompleted ||
               ({ s with jobs := js } : JobSet).isNsfw ||
               ({ s with jobs := js } : JobSet).isFailed ||
               ({ s with jobs := js } : JobSet).isCanceled) = true
          · rw [if_pos hterm] at h
            have hs' : s' = { s with jobs := js } := by
              cases h; rfl
            rw [hs']
            exact (jobSet_terminal_iff _).mp hterm
          · rw [if_neg hterm] at h
            obtain ⟨m, hm⟩ := pollBump_settled h
            exact ih _ _ _ hm
        | error err =>
          rw [hq] at h
          dsimp only at h
          by_cases htr : pollTransient err = true
          · rw [if_pos htr] at h
            obtain ⟨m, hm⟩ := pollBump_settled h
            exact ih _ _ _ hm
          · rw [if_neg htr] at h
            exact absurd h (by simp)
  · intro cfg start s e rest js ht hq
    constructor
    · intro hterm
      simp only [pollLoop, if_neg ht, hq]
      rw [if_pos ((jobSet_terminal_iff _).mpr hterm)]
    · intro hterm
      simp only [pollLoop, if_neg ht, hq]
      rw [if_neg (fun hc => hterm ((jobSet_terminal_iff _).mp hc))]

/-- Witness for C2: a one-event trace whose response contains one
completed and one queued job (not all terminal) settles with the
response's jobs and one query; a one-event all-queued trace does not
settle in that step. -/
theorem jobSet_poll_settles_iff_any_terminal_witness :
    ¬ ((0 : Int) - 0 > defaultConfig.maxPollTime) ∧
    pollLoop defaultConfig 0 (JobSet.mk "js1" [])
        [⟨0, Except.ok [⟨"a", "completed", none⟩, ⟨"b", "queued", none⟩]⟩] =
      PollOutcome.settled
        (JobSet.mk "js1" [⟨"a", "completed", none⟩, ⟨"b", "queued", none⟩]) 1 :=
  ⟨by decide,
    ((jobSet_poll_settles_iff_any_terminal.2 defaultConfig 0 (JobSet.mk "js1" [])
        ⟨0, Except.ok [⟨"a", "completed", none⟩, ⟨"b", "queued", none⟩]⟩ []
        [⟨"a", "completed", none⟩, ⟨"b", "queued", none⟩]
        (by decide) rfl).1
      ⟨⟨"a", "completed", none⟩, by simp, Or.inl rfl⟩)⟩

/-- C4: during `JobSet.poll`, a status-query failure that is an axios
error with response status ≥ 500 (such as a 503) does not abort the
loop: a transient failure followed by a terminal response settles after
exactly 2 status queries; whereas a failure that is not transient (an
axios 4xx such as 404, or any non-axios error) aborts the poll
immediately after that single query, propagating the failure
unchanged. -/
theorem jobSet_poll_transient_5xx_vs_abort :
    (∀ c, pollTransient (TSError.axios ⟨c, some 503⟩) = true) ∧
    (∀ c, pollTransient (TSError.axios ⟨c, some 404⟩) = false) ∧
    (∀ nm, pollTransient (TSError.other nm) = false) ∧
    (∀ cfg start (s : JobSet) (e1 e2 : PollEvent) rest err js,
      e1.query = Except.error err → pollTransient err = true →
      ¬ e1.now - start > cfg.maxPollTime →
      e2.query = Except.ok js → ¬ e2.now - start > cfg.maxPollTime →
      anyTerminal js = true →
      pollLoop cfg start s (e1 :: e2 :: rest) =
        PollOutcome.settled { s with jobs := js } 2) ∧
    (∀ cfg start (s : JobSet) (e : PollEvent) rest err,
      e.query = Except.error err → pollTransient err = false →
      ¬ e.now - start > cfg.maxPollTime →
      pollLoop cfg start s (e :: rest) = PollOutcome.errored err 1) := by
  refine ⟨fun c => rfl, fun c => rfl, fun nm => rfl, ?_, ?_⟩
  · intro cfg start s e1 e2 rest err js hq1 htr ht1 hq2 ht2 hterm
    simp only [pollLoop, if_neg ht1, if_neg ht2, hq1, hq2, htr, if_true,
      stopCheck_eq_anyTerminal, hterm, pollBump]
  · intro cfg start s e rest err hq htr ht
    simp only [pollLoop, if_neg ht, hq, htr, Bool.false_eq_true, if_false]

/-- Witness for C4: a 503 axios failure then a completed-job response
settles in 2 queries; a lone 404 axios failure aborts with that error
after 1 query. -/
theorem jobSet_poll_transient_5xx_vs_abort_witness :
    pollTransient (TSError.axios ⟨none, some 503⟩) = true ∧
    pollLoop defaultConfig 0 (JobSet.mk "j" [])
        [⟨0, Except.error (TSError.axios ⟨none, some 503⟩)⟩,
         ⟨5, Except.ok [⟨"a", "completed", none⟩]⟩] =
      PollOutcome.settled (JobSet.mk "j" [⟨"a", "completed", none⟩]) 2 ∧
    pollLoop defaultConfig 0 (JobSet.mk "j" [])
        [⟨0, Except.error (TSError.axios ⟨none, some 404⟩)⟩] =
      PollOutcome.errored (TSError.axios ⟨none, some 404⟩) 1 :=
  ⟨rfl,
    jobSet_poll_transient_5xx_vs_abort.2.2.2.1 defaultConfig 0 (JobSet.mk "j" [])
      ⟨0, Except.error (TSError.axios ⟨none, some 503⟩)⟩
      ⟨5, Except.ok [⟨"a", "completed", none⟩]⟩ []
      (TSError.axios ⟨none, some 503⟩) [⟨"a", "completed", none⟩]
      rfl rfl (by decide) rfl (by decide) rfl,
    jobSet_poll_transient_5xx_vs_abort.2.2.2.2 defaultConfig 0 (JobSet.mk "j" [])
      ⟨0, Except.error (TSError.axios ⟨none, some 404⟩)⟩ []
      (TSError.axios ⟨none, some 404⟩) rfl rfl (by decide)⟩

/-- C5: the deadline check runs once per loop iteration before the
status query — an iteration whose clock exceeds the recorded start by
more than `maxPollTime` fails with the timeout error whose message
embeds the configured `maxPollTime` and issues no query in that
iteration; and a poll whose responses never contain a terminal-status
job (and whose query failures, if any, are all transient) ends in
exactly that timeout error once its trace passes the deadline. -/
theorem jobSet_poll_timeout_embeds_limit :
    (∀ cfg start (s : JobSet) (e : PollEvent) rest,
      e.now - start > cfg.maxPollTime →
      pollLoop cfg start s (e :: rest) =
        PollOutcome.timedOut
          ("Polling exceeded maximum time of " ++ toString cfg.maxPollTime ++ "ms") 0) ∧
    (∀ cfg start (s : JobSet) (trace : List PollEvent),
      (∀ e ∈ trace, ∀ js, e.query = Except.ok js → anyTerminal js = false) →
      (∀ e ∈ trace, ∀ err, e.query = Except.error err → pollTransient err = true) →
      (∃ e ∈ trace, e.now - start > cfg.maxPollTime) →
      ∃ n, pollLoop cfg start s trace =
        PollOutcome.timedOut
          ("Polling exceeded maximum time of " ++ toString cfg.maxPollTime ++ "ms") n) := by
  constructor
  · intro cfg start s e rest ht
    simp only [pollLoop, if_pos ht, timeoutMessage]
  · intro cfg start s trace
    induction trace generalizing s with
    | nil =>
      rintro _ _ ⟨e, he, _⟩
      exact absurd he (List.not_mem_nil e)
    | cons e rest ih =>
      intro hok herr hex
      by_cases ht : e.now - start > cfg.maxPollTime
      · exact ⟨0, by simp only [pollLoop, if_pos ht, timeoutMessage]⟩
      · obtain ⟨e', he', hgt⟩ := hex
        have he'r : e' ∈ rest := by
          rcases List.mem_cons.mp he' with h | h
          · exact absurd (h ▸ hgt) ht
          · exact h
        have hok' := fun x hx => hok x (List.mem_cons_of_mem e hx)
        have herr' := fun x hx => herr x (List.mem_cons_of_mem e hx)
        cases hq : e.query with
        | ok js =>
          obtain ⟨n, hn⟩ := ih { s with jobs := js } hok' herr' ⟨e', he'r, hgt⟩
          refine ⟨n + 1, ?_⟩
          simp only [pollLoop, if_neg ht, hq, stopCheck_eq_anyTerminal,
            hok e (List.mem_cons_self e rest) js hq, Bool.false_eq_true, if_false,
            hn, pollBump]
        | error err =>
          obtain ⟨n, hn⟩ := ih s hok' herr' ⟨e', he'r, hgt⟩
          refine ⟨n + 1, ?_⟩
          simp only [pollLoop, if_neg ht, hq,
            herr e (List.mem_cons_self e rest) err hq, if_true, hn, pollBump]

/-- Witness for C5: with the default 300000 ms limit, an iteration at
clock 300001 times out before querying, and a two-event all-non-terminal
trace whose second event passes the deadline ends in the timeout
error. -/
theorem jobSet_poll_timeout_embeds_limit_witness :
    ((300001 : Int) - 0 > defaultConfig.maxPollTime) ∧
    pollLoop defaultConfig 0 (JobSet.mk "j" []) [⟨300001, Except.ok []⟩] =
      PollOutcome.timedOut
        ("Polling exceeded maximum time of " ++ toString defaultConfig.maxPollTime ++ "ms") 0 ∧
    (∃ n, pollLoop defaultConfig 0 (JobSet.mk "j" [])
        [⟨1, Except.ok []⟩, ⟨300002, Except.ok []⟩] =
      PollOutcome.timedOut
        ("Polling exceeded maximum time of " ++ toString defaultConfig.maxPollTime ++ "ms") n) :=
  ⟨by decide,
    jobSet_poll_timeout_embeds_limit.1 defaultConfig 0 (JobSet.mk "j" [])
      ⟨300001, Except.ok []⟩ [] (by decide),
    jobSet_poll_timeout_embeds_limit.2 defaultConfig 0 (JobSet.mk "j" [])
      [⟨1, Except.ok []⟩, ⟨300002, Except.ok []⟩]
      (by
        intro e he js hq
        rcases List.mem_cons.mp he with h | h
        · subst h; cases hq; rfl
        · rcases List.mem_cons.mp h with h2 | h2
          · subst h2; cases hq; rfl
          · exact absurd h2 (List.not_mem_nil e))
      (by
        intro e he err hq
        rcases List.mem_cons.mp he with h | h
        · subst h; simp at hq
        · rcases List.mem_cons.mp h with h2 | h2
          · subst h2; simp at hq
          · exact absurd h2 (List.not_mem_nil e))
      ⟨⟨300002, Except.ok []⟩, by simp, by decide⟩⟩

/-- C10: with an empty jobs list all six status predicates are false;
a poll whose every response carries an empty jobs list never settles and
never propagates an error (so it can end only by the deadline timeout or
by running out of trace); and the predicates are existential, hence not
mutually exclusive: a set mixing a completed and a failed job has both
`isCompleted` and `isFailed` true. -/
theorem jobSet_empty_and_mixed_status_predicates :
    (∀ s : JobSet, s.jobs = [] →
      s.isQueued = false ∧ s.isInProgress = false ∧ s.isCompleted = false ∧
      s.isNsfw = false ∧ s.isFailed = false ∧ s.isCanceled = false) ∧
    (∀ cfg start (s : JobSet) (trace : List PollEvent),
      (∀ e ∈ trace, e.query = Except.ok ([] : List Job)) →
      (∀ s' n, pollLoop cfg start s trace ≠ PollOutcome.settled s' n) ∧
      (∀ err n, pollLoop cfg start s trace ≠ PollOutcome.errored err n)) ∧
    ((JobSet.mk "m" [⟨"a", "completed", none⟩, ⟨"b", "failed", none⟩]).isCompleted = true ∧
      (JobSet.mk "m" [⟨"a", "completed", none⟩, ⟨"b", "failed", none⟩]).isFailed = true) := by
  refine ⟨?_, ?_, by decide⟩
  · intro s h
    simp [JobSet.isQueued, JobSet.isInProgress, JobSet.isCompleted, JobSet.isNsfw,
      JobSet.isFailed, JobSet.isCanceled, JobSet.checkStatus, h]
  · intro cfg start s trace
    induction trace generalizing s with
    | nil =>
      intro _
      constructor <;> intro a b hc <;> simp [pollLoop] at hc
    | cons e rest ih =>
      intro hall
      have hq := hall e (List.mem_cons_self e rest)
      have hall' := fun x hx => hall x (List.mem_cons_of_mem e hx)
      by_cases ht : e.now - start > cfg.maxPollTime
      · constructor <;> intro a b hc <;> simp [pollLoop, if_pos ht] at hc
      · have hstep : pollLoop cfg start s (e :: rest) =
            pollBump (pollLoop cfg start { s with jobs := [] } rest) := by
          simp only [pollLoop, if_neg ht, hq, stopCheck_eq_anyTerminal,
            show anyTerminal [] = false from rfl, Bool.false_eq_true, if_false]
        constructor
        · intro s' n hc
          rw [hstep] at hc
          obtain ⟨m, hm⟩ := pollBump_settled hc
          exact (ih { s with jobs := [] } hall').1 s' m hm
        · intro err n hc
          rw [hstep] at hc
          obtain ⟨m, hm⟩ := pollBump_errored hc
          exact (ih { s with jobs := [] } hall').2 err m hm

/-- Witness for C10: the six predicates on a concrete empty job set, and
a concrete one-event empty-response trace that cannot settle. -/
theorem jobSet_empty_and_mixed_status_predicates_witness :
    ((JobSet.mk "x" []).isQueued = false ∧ (JobSet.mk "x" []).isInProgress = false ∧
      (JobSet.mk "x" []).isCompleted = false ∧ (JobSet.mk "x" []).isNsfw = false ∧
      (JobSet.mk "x" []).isFailed = false ∧ (JobSet.mk "x" []).isCanceled = false) ∧
    pollLoop defaultConfig 0 (JobSet.mk "x" []) [⟨1, Except.ok []⟩] ≠
      PollOutcome.settled (JobSet.mk "x" []) 1 :=
  ⟨jobSet_empty_and_mixed_status_predicates.1 (JobSet.mk "x" []) rfl,
    (jobSet_empty_and_mixed_status_predicates.2.1 defaultConfig 0 (JobSet.mk "x" [])
      [⟨1, Except.ok []⟩]
      (by
        intro e he
        rcases List.mem_cons.mp he with h | h
        · subst h; rfl
        · exact absurd h (List.not_mem_nil e))).1
      (JobSet.mk "x" []) 1⟩

/-! ### Error-classifier lemmas -/

/-- C8: the response interceptor produces exactly one typed error,
determined by the response status alone: 401 maps to the authentication
error regardless of body, 403 to the insufficient-credits error with
status fixed at 403 regardless of body, 422 and 400 to the validation
and bad-input errors built from the response's `detail`, any other
received response to the generic API error carrying the status and raw
body, and an error without a response is rethrown unchanged. -/
theorem interceptor_classifies_by_status :
    ∀ e : TransportError,
      (∀ r, e.response = some r →
        (r.status = 401 →
          classifyResponseError e = ClassifiedError.auth "Invalid API credentials") ∧
        (r.status = 403 →
          classifyResponseError e = ClassifiedError.credits "Not enough credits" 403) ∧
        (r.status = 422 →
          classifyResponseError e =
            ClassifiedError.validation (ValidationError.make (r.data.bind RespBody.detail))) ∧
        (r.status = 400 →
          classifyResponseError e =
            ClassifiedError.badInput (BadInputError.make (r.data.bind RespBody.detail))) ∧
        (r.status ≠ 401 → r.status ≠ 403 → r.status ≠ 422 → r.status ≠ 400 →
          classifyResponseError e = ClassifiedError.api e.message r.status r.data)) ∧
      (e.response = none → classifyResponseError e = ClassifiedError.passthrough e) := by
  intro e
  constructor
  · intro r hr
    refine ⟨?_, ?_, ?_, ?_, ?_⟩
    · intro h; simp [classifyResponseError, hr, h]
    · intro h; simp [classifyResponseError, hr, h]
    · intro h; simp [classifyResponseError, hr, h]
    · intro h; simp [classifyResponseError, hr, h]
    · intro h1 h2 h3 h4; simp [classifyResponseError, hr, h1, h2, h3, h4]
  · intro h; simp [classifyResponseError, h]

/-- Witness for C8: concrete classifications of a 401, a 403, a 422 with
structured detail, a 500 and a response-less transport error. -/
theorem interceptor_classifies_by_status_witness :
    classifyResponseError ⟨"Unauthorized", some ⟨401, some ⟨some (Detail.str "x")⟩⟩⟩ =
      ClassifiedError.auth "Invalid API credentials" ∧
    classifyResponseError ⟨"Forbidden", some ⟨403, none⟩⟩ =
      ClassifiedError.credits "Not enough credits" 403 ∧
    classifyResponseError ⟨"Unprocessable", some ⟨422, some ⟨some (Detail.str "bad")⟩⟩⟩ =
      ClassifiedError.validation (ValidationError.make (some (Detail.str "bad"))) ∧
    classifyResponseError ⟨"Server error", some ⟨500, none⟩⟩ =
      ClassifiedError.api "Server error" 500 none ∧
    classifyResponseError ⟨"Network error", none⟩ =
      ClassifiedError.passthrough ⟨"Network error", none⟩ :=
  ⟨((interceptor_classifies_by_status
      ⟨"Unauthorized", some ⟨401, some ⟨some (Detail.str "x")⟩⟩⟩).1
      ⟨401, some ⟨some (Detail.str "x")⟩⟩ rfl).1 rfl,
    ((interceptor_classifies_by_status ⟨"Forbidden", some ⟨403, none⟩⟩).1
      ⟨403, none⟩ rfl).2.1 rfl,
    ((interceptor_classifies_by_status
      ⟨"Unprocessable", some ⟨422, some ⟨some (Detail.str "bad")⟩⟩⟩).1
      ⟨422, some ⟨some (Detail.str "bad")⟩⟩ rfl).2.2.1 rfl,
    ((interceptor_classifies_by_status ⟨"Server error", some ⟨500, none⟩⟩).1
      ⟨500, none⟩ rfl).2.2.2.2 (by decide) (by decide) (by decide) (by decide),
    (interceptor_classifies_by_status ⟨"Network error", none⟩).2 rfl⟩

/-- C9: `ValidationError` and `BadInputError` form message and retained
details by the same rule; a structured detail list renders each entry as
the dot-joined location, a colon-space, and the message, entries joined
by comma-space (with the two-entry batch_size/prompt example yielding
exactly the expected string); a string detail is used verbatim; a missing
detail falls back to a fixed message; and a structured list is retained
on the details field. -/
theorem detail_message_formation :
    (∀ d, (ValidationError.make d).message = (BadInputError.make d).message ∧
      (ValidationError.make d).details = (BadInputError.make d).details) ∧
    (∀ l, (ValidationError.make (some (Detail.list l))).message =
      String.intercalate ", "
        (l.map fun err => String.intercalate "." err.loc ++ ": " ++ err.msg)) ∧
    (∀ s, (ValidationError.make (some (Detail.str s))).message = s) ∧
    (ValidationError.make none).message = "Check your input params" ∧
    (∀ l, (ValidationError.make (some (Detail.list l))).details = some l ∧
      (BadInputError.make (some (Detail.list l))).details = some l) ∧
    (ValidationError.make (some (Detail.list
        [⟨"literal_error", ["body", "params", "batch_size"], "Input should be 1 or 4"⟩,
         ⟨"missing", ["body", "params", "prompt"], "Field required"⟩]))).message =
      "body.params.batch_size: Input should be 1 or 4, body.params.prompt: Field required" := by
  refine ⟨?_, fun l => rfl, fun s => rfl, rfl, fun l => ⟨rfl, rfl⟩, ?_⟩
  · intro d
    rcases d with _ | d
    · exact ⟨rfl, rfl⟩
    · rcases d with s | l <;> exact ⟨rfl, rfl⟩
  · decide

/-! ### Configuration lemmas -/

/-- C3 (amended): `Config.validate` succeeds exactly when `timeout`,
`pollInterval` and `maxPollTime` are positive and `maxRetries` lies in
`[0, 5]`.  The `retryBackoff` and `retryMaxBackoff` durations are not
validated, so a successfully constructed `Config` is guaranteed only the
three positivity facts and the `maxRetries` bounds. -/
theorem config_validate_ok_iff (c : ConfigData) :
    Config.validate c = Except.ok () ↔
      (0 < c.timeout ∧ 0 ≤ c.maxRetries ∧ c.maxRetries ≤ 5 ∧
        0 < c.pollInterval ∧ 0 < c.maxPollTime) := by
  unfold Config.validate
  split_ifs <;> simp_all

/-- C3 counterexample: a config whose `retryBackoff` is `-1` (a duration
field ≤ 0) still validates, so construction succeeds and the claimed
all-durations-positive invariant does not hold for constructed
configs. -/
theorem config_negative_retry_backoff_accepted :
    Config.validate { defaultConfig with retryBackoff := -1 } = Except.ok () ∧
    ({ defaultConfig with retryBackoff := -1 } : ConfigData).retryBackoff ≤ 0 := by
  constructor <;> decide

end Higgsfield
